import Mathlib

/-!
Verification of the TSHC causelist scraper (proxy.py `TSHCScraper` and the
variant in tshc-causelist-app-final/app.py) against its specification.

The HTML documents consumed by `_parse_html` are modelled shallowly: each
BeautifulSoup query the source performs on a node (get_text, find a specific
link/div, find_all of a div family) becomes a field of the corresponding
structure, so a `td` is represented by the results of the five queries the
parser makes on it, a `table#dataTable` by its `find_previous('thead')`
result and its tbody row lists, and the page by its text and table list.
Python string operations (`strip`, `lower`, `split`, `in`, `' '.join`) are
translated to executable Lean functions over `List Char` (ASCII fragment,
which covers all the marker tokens the parser tests for).
-/

namespace TSHC

/-- Python `str.strip()` whitespace test (ASCII fragment of Python's table). -/
def isPySpace (c : Char) : Bool :=
  c = ' ' || c = '\t' || c = '\n' || c = '\r' || c = '\x0b' || c = '\x0c'

/-- Python `str.strip()`: drop leading and trailing whitespace. -/
def pyStrip (s : String) : String :=
  String.mk (((s.data.dropWhile isPySpace).reverse.dropWhile isPySpace).reverse)

/-- Python `str.lower()` (ASCII fragment: `Char.toLower` lowers A-Z). -/
def pyLower (s : String) : String :=
  String.mk (s.data.map Char.toLower)

/-- Contiguous-occurrence test on character lists, used for Python `in`. -/
def infixOfList : List Char → List Char → Bool
  | needle, [] => needle.isEmpty
  | needle, c :: t => needle.isPrefixOf (c :: t) || infixOfList needle t

/-- Python `needle in hay` for strings: substring containment. -/
def pyIn (needle hay : String) : Bool :=
  infixOfList needle.data hay.data

/-- Python `text.split('\n')`: split a character list at newline characters. -/
def splitOnNl : List Char → List (List Char)
  | [] => [[]]
  | c :: t =>
    let rest := splitOnNl t
    if c = '\n' then [] :: rest
    else
      match rest with
      | [] => [[c]]
      | h :: hs => (c :: h) :: hs

/-- `[line.strip() for line in party_text.split('\n') if line.strip()]`
    from `_parse_html`: the non-empty stripped lines of the party cell. -/
def partyLines (party_text : String) : List String :=
  ((splitOnNl party_text.data).map (fun l => pyStrip (String.mk l))).filter
    (fun l => !(l == ""))

/-- Python `' '.join(lines)`. -/
def joinSpace : List String → String
  | [] => ""
  | [s] => s
  | s :: rest => s ++ " " ++ joinSpace rest

/-- `'vs' in line.lower()`: the case-row party-split trigger of `_parse_html`. -/
def hasVs (line : String) : Bool :=
  pyIn "vs" (pyLower line)

/-- Index of the first party line containing "vs" (the `for i, line in
    enumerate(party_lines): if 'vs' in line.lower(): ... break` loop). -/
def firstVsIdx : List String → Option Nat
  | [] => none
  | l :: ls => if hasVs l then some 0 else (firstVsIdx ls).map (· + 1)

/-- The petitioner/respondent extraction of `_parse_html`: split the party
    lines at the first line containing "vs" (case-insensitive substring);
    `' '.join` of the lines before it is the petitioner, `' '.join` of the
    lines after it the respondent; both empty if no line matches. -/
def splitParties (party_lines : List String) : String × String :=
  match firstVsIdx party_lines with
  | some i => (joinSpace (party_lines.take i), joinSpace (party_lines.drop (i + 1)))
  | none => ("", "")

/-- A `td` cell, represented by the results of the BeautifulSoup queries
    `_parse_html` performs on it:
    `getText` is `get_text(strip=True)`;
    `getTextNl` is `get_text(separator='\n', strip=True)`;
    `caseNumberLink` is the text of `find('a', id='caseNumber')` when found;
    `dataCaseIdDivs` are the texts of `find_all('div', {'data-case-id': True})`;
    `colorBlueDiv` is the text of `find('div', style=re.compile(r'color:#1e74cf'))`;
    `nonBlueStyledDiv` is the text of
    `find('div', style=lambda x: x and 'color:#1e74cf' not in x)`. -/
structure Td where
  getText : String
  getTextNl : String
  caseNumberLink : Option String
  dataCaseIdDivs : List String
  colorBlueDiv : Option String
  nonBlueStyledDiv : Option String
deriving DecidableEq, Repr

/-- A `tr` row: the text of its `find('span', class_='stage-name')` when one
    exists, and its `td` cells. -/
structure RowT where
  stageSpan : Option String
  tds : List Td
deriving DecidableEq, Repr

/-- A `thead` header block: the texts of the three divs `_parse_html` looks
    for in it (`COURT NO.`, `THE HONOURABLE`, `style=color:#c90d1f`), each
    absent when the corresponding `find` returns nothing. -/
structure Thead where
  courtDiv : Option String
  judgeDiv : Option String
  listTypeDiv : Option String
deriving DecidableEq, Repr

/-- A `table#dataTable`: the result of `table.find_previous('thead')` and the
    row lists of its `tbody` elements, in document order. -/
structure TableT where
  prevThead : Option Thead
  tbodies : List (List RowT)
deriving DecidableEq, Repr

/-- The parsed page: `soup.get_text()` and the
    `soup.find_all('table', {'id': 'dataTable'})` list in document order. -/
structure Document where
  pageText : String
  tables : List TableT
deriving DecidableEq, Repr

/-- One case record as appended to `cases` by `_parse_html`. -/
structure CaseRecord where
  s_no : String
  case_no : String
  connected_cases : List String
  petitioner : String
  respondent : String
  petitioner_advocate : String
  respondent_advocate : String
  district : String
  remarks : String
  court : Option String
  judge : Option String
  stage : Option String
deriving DecidableEq, Repr

/-- The carried-forward group context: the `current_court`, `current_judge`,
    `current_stage` locals of `_parse_html`. -/
structure GroupContext where
  court : Option String
  judge : Option String
  stage : Option String
deriving DecidableEq, Repr

/-- `current_court = None; current_judge = None; current_stage = None`. -/
def initialContext : GroupContext :=
  { court := none, judge := none, stage := none }

/-- The header inspection at the top of the table loop: each of the three
    marker divs, when found in the preceding `thead`, overwrites its context
    field; an absent div (or an absent `thead`) leaves the carried value. -/
def applyThead (ctx : GroupContext) : Option Thead → GroupContext
  | none => ctx
  | some h =>
    let ctx1 :=
      match h.courtDiv with
      | some t => { ctx with court := some t }
      | none => ctx
    let ctx2 :=
      match h.judgeDiv with
      | some t => { ctx1 with judge := some t }
      | none => ctx1
    match h.listTypeDiv with
    | some t => { ctx2 with stage := some t }
    | none => ctx2

/-- The candidate-case-row extraction of `_parse_html` for a row with at
    least 6 `td` cells `c0 .. c5` (extra cells are unused, as in the source):
    returns the record appended to `cases`, or `none` when the
    `if case_no and '/' in case_no` filter rejects the row. -/
def rowRecord (ctx : GroupContext) (c0 c1 c2 c3 c4 c5 : Td) : Option CaseRecord :=
  let s_no := c0.getText
  let case_no :=
    match c1.caseNumberLink with
    | some t => t
    | none => c1.getText
  let connected_cases := c1.dataCaseIdDivs
  let pr := splitParties (partyLines c2.getTextNl)
  let pet_adv := c3.getText
  let res_adv := c4.getText
  let district :=
    match c5.colorBlueDiv with
    | some t => t
    | none => c5.getText
  let remarks :=
    match c5.nonBlueStyledDiv with
    | some t => t
    | none => ""
  if (!(case_no == "")) && pyIn "/" case_no then
    some {
      s_no := s_no
      case_no := case_no
      connected_cases := connected_cases
      petitioner := pr.1
      respondent := pr.2
      petitioner_advocate := pet_adv
      respondent_advocate := res_adv
      district := district
      remarks := remarks
      court := ctx.court
      judge := ctx.judge
      stage := ctx.stage }
  else none

/-- One iteration of the row loop: a stage-marker row (`span.stage-name`)
    updates `current_stage` and contributes no record (`continue`); a row
    with at least 6 cells goes through `rowRecord`; any other row is
    skipped. -/
def processRow (ctx : GroupContext) (row : RowT) : GroupContext × Option CaseRecord :=
  match row.stageSpan with
  | some s => ({ ctx with stage := some s }, none)
  | none =>
    match row.tds with
    | c0 :: c1 :: c2 :: c3 :: c4 :: c5 :: _ => (ctx, rowRecord ctx c0 c1 c2 c3 c4 c5)
    | _ => (ctx, none)

/-- The row loop over one `tbody`, threading the group context and
    accumulating emitted records in document order. -/
def processRows (ctx : GroupContext) : List RowT → GroupContext × List CaseRecord
  | [] => (ctx, [])
  | r :: rs =>
    let step := processRow ctx r
    let rest := processRows step.1 rs
    match step.2 with
    | some rec => (rest.1, rec :: rest.2)
    | none => rest

/-- The `for tbody in tbodies` loop. -/
def processTbodies (ctx : GroupContext) : List (List RowT) → GroupContext × List CaseRecord
  | [] => (ctx, [])
  | b :: bs =>
    let stepB := processRows ctx b
    let rest := processTbodies stepB.1 bs
    (rest.1, stepB.2 ++ rest.2)

/-- One iteration of the `for table in tables` loop: apply the preceding
    header to the context, then walk the table's tbodies. -/
def processTable (ctx : GroupContext) (t : TableT) : GroupContext × List CaseRecord :=
  processTbodies (applyThead ctx t.prevThead) t.tbodies

/-- The `for table in tables` loop. -/
def processTables (ctx : GroupContext) : List TableT → GroupContext × List CaseRecord
  | [] => (ctx, [])
  | t :: ts =>
    let stepT := processTable ctx t
    let rest := processTables stepT.1 ts
    (rest.1, stepT.2 ++ rest.2)

/-- ASCII decimal digit, for the `\d` class of the total-cases pattern. -/
def isRegexDigit (c : Char) : Bool :=
  '0' ≤ c && c ≤ '9'

/-- `int(...)` on a non-empty digit string. -/
def digitsToNat (ds : List Char) : Nat :=
  ds.foldl (fun n c => 10 * n + (c.toNat - 48)) 0

/-- Match a literal character sequence at the head, returning the rest. -/
def dropLiteral : List Char → List Char → Option (List Char)
  | [], cs => some cs
  | _ :: _, [] => none
  | l :: ls, c :: cs => if c = l then dropLiteral ls cs else none

/-- Attempt the pattern `TOTAL CASES FOR\s+\d+\s*=\s*(\d+)` at the current
    position, returning the value of the captured group. All repeats are
    over disjoint character classes, so greedy matching without backtracking
    is exact. -/
def matchTotalHere (cs : List Char) : Option Nat :=
  match dropLiteral "TOTAL CASES FOR".data cs with
  | none => none
  | some cs1 =>
    if (cs1.takeWhile isPySpace).isEmpty then none
    else
      let cs2 := cs1.dropWhile isPySpace
      if (cs2.takeWhile isRegexDigit).isEmpty then none
      else
        let cs3 := (cs2.dropWhile isRegexDigit).dropWhile isPySpace
        match cs3 with
        | '=' :: cs4 =>
          let cs5 := cs4.dropWhile isPySpace
          let d2 := cs5.takeWhile isRegexDigit
          if d2.isEmpty then none else some (digitsToNat d2)
        | _ => none

/-- `re.search(r'TOTAL CASES FOR\s+\d+\s*=\s*(\d+)', page_text)`: leftmost
    match of the pattern, scanning start positions left to right. -/
def searchTotal : List Char → Option Nat
  | [] => none
  | c :: cs =>
    match matchTotalHere (c :: cs) with
    | some n => some n
    | none => searchTotal cs

/-- The dictionary returned by `TSHCScraper._parse_html` in proxy.py. -/
structure ParseResult where
  cases : List CaseRecord
  count : Nat
  total_cases_header : Nat
  advocate_code : String
  date : String
deriving DecidableEq, Repr

/-- `TSHCScraper._parse_html` (proxy.py; the variant in
    tshc-causelist-app-final/app.py runs the same extraction and differs only
    by additionally stamping `timestamp`/`method` into the returned dict):
    best-effort total-cases header, then the table walk from the all-`None`
    initial context, then the envelope with `count` set to `len(cases)`. -/
def parse_html (doc : Document) (code date_str : String) : ParseResult :=
  let total_cases := (searchTotal doc.pageText.data).getD 0
  let cases := (processTables initialContext doc.tables).2
  { cases := cases
    count := cases.length
    total_cases_header := total_cases
    advocate_code := code
    date := date_str }

/-- The exception raised inside `fetch_data`'s `try` block, by exception
    class: the first four are subclasses of `requests.RequestException`
    (caught by the first `except` clause), `otherException` is any other
    `Exception` (caught by the second). The string is `str(e)`. -/
inductive FetchRaise where
  | requestTimeout (msg : String)
  | connectionFailure (msg : String)
  | httpStatusError (msg : String)
  | otherRequestError (msg : String)
  | otherException (msg : String)
deriving DecidableEq, Repr

/-- Which `except` clause of `fetch_data` catches the exception. -/
def FetchRaise.isRequestException : FetchRaise → Bool
  | .otherException _ => false
  | _ => true

/-- `str(e)` of the raised exception. -/
def FetchRaise.message : FetchRaise → String
  | .requestTimeout m => m
  | .connectionFailure m => m
  | .httpStatusError m => m
  | .otherRequestError m => m
  | .otherException m => m

/-- The response envelope as a dictionary shape: fields that a given return
    path leaves out of the dict are `none`. -/
structure Envelope where
  cases : List CaseRecord
  count : Nat
  error : Option String
  timestamp : Option String
  method : Option String
  total_cases_header : Option Nat
  advocate_code : Option String
  date : Option String
deriving DecidableEq, Repr

/-- `TSHCScraper.fetch_data` (proxy.py), with the transport-and-parse step's
    outcome as input: `Except.ok doc` is the document of the POST response
    body, `Except.error e` any exception raised by the two `_make_request`
    calls or the parse. `now` is `datetime.now().strftime(...)`. Every path
    returns a dict: the success path stamps `method`/`timestamp` onto the
    `_parse_html` result, the two `except` clauses build fixed-message error
    dicts with empty `cases` and zero `count`. -/
def fetch_data (outcome : Except FetchRaise Document)
    (advocate_code date_str now : String) : Envelope :=
  match outcome with
  | .ok doc =>
    let result := parse_html doc advocate_code date_str
    { cases := result.cases
      count := result.count
      error := none
      timestamp := some now
      method := some "requests-session"
      total_cases_header := some result.total_cases_header
      advocate_code := some result.advocate_code
      date := some result.date }
  | .error e =>
    if e.isRequestException then
      { cases := []
        count := 0
        error := some "Unable to connect to court website"
        timestamp := some now
        method := none
        total_cases_header := none
        advocate_code := none
        date := none }
    else
      { cases := []
        count := 0
        error := some "An error occurred while fetching data"
        timestamp := some now
        method := none
        total_cases_header := none
        advocate_code := none
        date := none }

/-- `TSHCScraper.fetch_data` of tshc-causelist-app-final/app.py: same
    structure, but its error dicts carry no timestamp and echo the exception
    text (`f"Network error: {str(e)}"` in the `RequestException` clause,
    bare `str(e)` in the generic clause), and its success dict is the
    `_parse_html` return value of that file, which already contains
    `timestamp` and `method`. -/
def finalApp_fetch_data (outcome : Except FetchRaise Document)
    (advocate_code date_str now : String) : Envelope :=
  match outcome with
  | .ok doc =>
    let result := parse_html doc advocate_code date_str
    { cases := result.cases
      count := result.count
      error := none
      timestamp := some now
      method := some "requests-session"
      total_cases_header := some result.total_cases_header
      advocate_code := some result.advocate_code
      date := some result.date }
  | .error e =>
    if e.isRequestException then
      { cases := []
        count := 0
        error := some ("Network error: " ++ e.message)
        timestamp := none
        method := none
        total_cases_header := none
        advocate_code := none
        date := none }
    else
      { cases := []
        count := 0
        error := some e.message
        timestamp := none
        method := none
        total_cases_header := none
        advocate_code := none
        date := none }

/-- An HTTP response as seen by the session layer. -/
structure HttpResponse where
  status : Nat
  body : String
deriving DecidableEq, Repr

/-- `status_forcelist=[429, 500, 502, 503, 504]` from `TSHCScraper.__init__`. -/
def status_forcelist : List Nat :=
  [429, 500, 502, 503, 504]

/-- `Retry(total=3, ...)` from `TSHCScraper.__init__`. -/
def retry_total : Nat := 3

/-- `backoff_factor=0.8` from `TSHCScraper.__init__`, in tenths of a second. -/
def backoff_factor_tenths : Nat := 8

/-- Modelled from the spec: the exponential backoff of the configured
    urllib3 `Retry` (not repository code), in tenths of a second: the pause
    before the k-th retry is `backoff_factor * 2 ** (k - 1)`. -/
def backoffTenths (k : Nat) : Nat :=
  backoff_factor_tenths * 2 ^ (k - 1)

/-- Modelled from the spec: the retry loop of the mounted urllib3
    `Retry(total=3, status_forcelist=[429,500,502,503,504],
    raise_on_status=False)` adapter (library code, not under src/). The
    transport is a stream of responses, one per attempt; a response whose
    status is in the forcelist consumes one unit of budget and triggers the
    next attempt; when the budget is exhausted (or the status is not in the
    forcelist) the current response is returned to the caller. Returns the
    index of the attempt whose response is returned. -/
def finalAttempt (responses : Nat → HttpResponse) : Nat → Nat → Nat
  | i, budget =>
    if (responses i).status ∈ status_forcelist then
      match budget with
      | 0 => i
      | b + 1 => finalAttempt responses (i + 1) b
    else i

/-- The response a `session.get`/`session.post` call yields through the
    retrying adapter. -/
def sessionResult (responses : Nat → HttpResponse) : HttpResponse :=
  responses (finalAttempt responses 0 retry_total)

/-- Number of attempts the adapter makes before yielding a response. -/
def attemptsMade (responses : Nat → HttpResponse) : Nat :=
  finalAttempt responses 0 retry_total + 1

/-- `response.raise_for_status()`: a 4xx/5xx status raises
    `requests.HTTPError` carrying the status, otherwise the response is
    returned. -/
def raise_for_status (r : HttpResponse) : Except Nat HttpResponse :=
  if 400 ≤ r.status then Except.error r.status else Except.ok r

/-- Outcome of one `session.get`/`session.post` call as a function of the
    `verify` keyword it was given. -/
inductive AttemptResult where
  | response (r : HttpResponse)
  | sslFailure
  | connFailure (msg : String)
deriving DecidableEq, Repr

/-- What `_make_request` raises or returns. -/
inductive RequestErr where
  | httpStatus (status : Nat)
  | sslFailure
  | connFailure (msg : String)
deriving DecidableEq, Repr

/-- `TSHCScraper._make_request` (proxy.py): first attempt with
    `verify=True`; only an `SSLError` from that attempt is caught, and the
    request is then reissued once with `verify=False`; each attempt's
    response goes through `raise_for_status`. Any error of the second
    attempt, and any non-SSL error of the first, propagates. -/
def make_request (send : Bool → AttemptResult) : Except RequestErr HttpResponse :=
  match send true with
  | .response r =>
    match raise_for_status r with
    | .ok ok => Except.ok ok
    | .error s => Except.error (.httpStatus s)
  | .connFailure m => Except.error (.connFailure m)
  | .sslFailure =>
    match send false with
    | .response r =>
      match raise_for_status r with
      | .ok ok => Except.ok ok
      | .error s => Except.error (.httpStatus s)
    | .connFailure m => Except.error (.connFailure m)
    | .sslFailure => Except.error .sslFailure

/-- The sequence of `verify` flags `_make_request` passes to the session for
    one logical request: always `True` first, `False` added only when the
    first attempt raised an `SSLError`. -/
def verifyFlags (send : Bool → AttemptResult) : List Bool :=
  match send true with
  | .sslFailure => [true, false]
  | _ => [true]

/-- One outbound request of the tshc-causelist-app-final scraper: method,
    URL, and the `verify` keyword passed. -/
structure RequestSpec where
  httpMethod : String
  url : String
  verify : Bool
deriving DecidableEq, Repr

/-- The two requests `TSHCScraper.fetch_data` of
    tshc-causelist-app-final/app.py issues on its happy path:
    `self.session.get(FORM_URL, timeout=30, verify=False)` then
    `self.session.post(RESULT_URL, ..., timeout=30, verify=False)`. -/
def finalApp_fetch_requests : List RequestSpec :=
  [ { httpMethod := "GET"
      url := "https://causelist.tshc.gov.in/advocateCodeCauseList"
      verify := false }
  , { httpMethod := "POST"
      url := "https://causelist.tshc.gov.in/advocateCodeWiseView"
      verify := false } ]

/-- The row-validity filter `if case_no and '/' in case_no` as a predicate
    on the emitted record. -/
def validCaseNo (r : CaseRecord) : Bool :=
  (!(r.case_no == "")) && pyIn "/" r.case_no

/-- A table that carries no group-context marker at all: no preceding
    `thead` was found and no row is a stage-marker row. -/
def noMarkersTable (t : TableT) : Bool :=
  t.prevThead.isNone && t.tbodies.all (fun b => b.all (fun r => r.stageSpan.isNone))

/-- A `td` whose only content is its text (no link, no sub-divs). -/
def plainTd (s : String) : Td :=
  { getText := s
    getTextNl := s
    caseNumberLink := none
    dataCaseIdDivs := []
    colorBlueDiv := none
    nonBlueStyledDiv := none }

/-- A six-cell candidate case row. -/
def caseRow (s_no case_no party : String) : RowT :=
  { stageSpan := none
    tds := [plainTd s_no, plainTd case_no, plainTd party,
            plainTd "P ADV", plainTd "R ADV", plainTd "HYD"] }

theorem rowRecord_some {ctx : GroupContext} {c0 c1 c2 c3 c4 c5 : Td}
    {rec : CaseRecord} (h : rowRecord ctx c0 c1 c2 c3 c4 c5 = some rec) :
    validCaseNo rec = true ∧ rec.court = ctx.court ∧ rec.judge = ctx.judge
      ∧ rec.stage = ctx.stage := by
  simp only [rowRecord] at h
  split at h
  case isTrue hc =>
    cases h
    exact ⟨by simpa [validCaseNo] using hc, rfl, rfl, rfl⟩
  case isFalse hc =>
    cases h

theorem processRow_some {ctx : GroupContext} {row : RowT} {rec : CaseRecord}
    (h : (processRow ctx row).2 = some rec) :
    validCaseNo rec = true ∧ rec.court = ctx.court ∧ rec.judge = ctx.judge
      ∧ rec.stage = ctx.stage := by
  rcases row with ⟨ss, tds⟩
  cases ss with
  | some s => simp [processRow] at h
  | none =>
    rcases tds with _ | ⟨c0, _ | ⟨c1, _ | ⟨c2, _ | ⟨c3, _ | ⟨c4, _ | ⟨c5, rest⟩⟩⟩⟩⟩⟩ <;>
      simp [processRow] at h
    exact rowRecord_some h

theorem processRow_fst_court (ctx : GroupContext) (row : RowT) :
    (processRow ctx row).1.court = ctx.court ∧ (processRow ctx row).1.judge = ctx.judge := by
  rcases row with ⟨ss, tds⟩
  cases ss with
  | some s => simp [processRow]
  | none =>
    rcases tds with _ | ⟨c0, _ | ⟨c1, _ | ⟨c2, _ | ⟨c3, _ | ⟨c4, _ | ⟨c5, rest⟩⟩⟩⟩⟩⟩ <;>
      simp [processRow]

theorem processRow_fst_noSpan {ctx : GroupContext} {row : RowT}
    (h : row.stageSpan = none) : (processRow ctx row).1 = ctx := by
  rcases row with ⟨ss, tds⟩
  cases h
  rcases tds with _ | ⟨c0, _ | ⟨c1, _ | ⟨c2, _ | ⟨c3, _ | ⟨c4, _ | ⟨c5, rest⟩⟩⟩⟩⟩⟩ <;>
    simp [processRow]

theorem processRows_all_valid (rows : List RowT) (ctx : GroupContext) :
    ((processRows ctx rows).2.all validCaseNo) = true := by
  induction rows generalizing ctx with
  | nil => rfl
  | cons r rs ih =>
    simp only [processRows]
    cases h : (processRow ctx r).2 with
    | none => simpa using ih (processRow ctx r).1
    | some rec =>
      simp only [List.all_cons, Bool.and_eq_true]
      exact ⟨(processRow_some h).1, ih (processRow ctx r).1⟩

theorem processRows_fst_court (rows : List RowT) (ctx : GroupContext) :
    (processRows ctx rows).1.court = ctx.court
      ∧ (processRows ctx rows).1.judge = ctx.judge := by
  induction rows generalizing ctx with
  | nil => exact ⟨rfl, rfl⟩
  | cons r rs ih =>
    simp only [processRows]
    cases h : (processRow ctx r).2 with
    | none =>
      have := ih (processRow ctx r).1
      have hr := processRow_fst_court ctx r
      exact ⟨this.1.trans hr.1, this.2.trans hr.2⟩
    | some rec =>
      have := ih (processRow ctx r).1
      have hr := processRow_fst_court ctx r
      exact ⟨this.1.trans hr.1, this.2.trans hr.2⟩

theorem processTbodies_all_valid (bs : List (List RowT)) (ctx : GroupContext) :
    ((processTbodies ctx bs).2.all validCaseNo) = true := by
  induction bs generalizing ctx with
  | nil => rfl
  | cons b rest ih =>
    simp only [processTbodies, List.all_append, Bool.and_eq_true]
    exact ⟨processRows_all_valid b ctx, ih (processRows ctx b).1⟩

theorem processTbodies_fst_court (bs : List (List RowT)) (ctx : GroupContext) :
    (processTbodies ctx bs).1.court = ctx.court
      ∧ (processTbodies ctx bs).1.judge = ctx.judge := by
  induction bs generalizing ctx with
  | nil => exact ⟨rfl, rfl⟩
  | cons b rest ih =>
    simp only [processTbodies]
    have h1 := ih (processRows ctx b).1
    have h2 := processRows_fst_court b ctx
    exact ⟨h1.1.trans h2.1, h1.2.trans h2.2⟩

theorem processTables_all_valid (ts : List TableT) (ctx : GroupContext) :
    ((processTables ctx ts).2.all validCaseNo) = true := by
  induction ts generalizing ctx with
  | nil => rfl
  | cons t rest ih =>
    simp only [processTables, processTable, List.all_append, Bool.and_eq_true]
    exact ⟨processTbodies_all_valid _ _, ih _⟩

theorem processRows_noSpan {rows : List RowT} (ctx : GroupContext)
    (h : (rows.all fun r => r.stageSpan.isNone) = true) :
    (processRows ctx rows).1 = ctx
      ∧ ∀ rec ∈ (processRows ctx rows).2,
          rec.court = ctx.court ∧ rec.judge = ctx.judge ∧ rec.stage = ctx.stage := by
  induction rows generalizing ctx with
  | nil => exact ⟨rfl, by intro rec hrec; cases hrec⟩
  | cons r rs ih =>
    simp only [List.all_cons, Bool.and_eq_true] at h
    have hspan : r.stageSpan = none := Option.isNone_iff_eq_none.mp h.1
    have hfst : (processRow ctx r).1 = ctx := processRow_fst_noSpan hspan
    have ihr := ih ctx h.2
    simp only [processRows, hfst]
    cases hrec : (processRow ctx r).2 with
    | none => exact ihr
    | some rec =>
      refine ⟨ihr.1, ?_⟩
      intro x hx
      cases hx with
      | head => exact ((processRow_some hrec).2).imp id id
      | tail _ hx => exact ihr.2 x hx

theorem processTbodies_noSpan {bs : List (List RowT)} (ctx : GroupContext)
    (h : (bs.all fun b => b.all fun r => r.stageSpan.isNone) = true) :
    (processTbodies ctx bs).1 = ctx
      ∧ ∀ rec ∈ (processTbodies ctx bs).2,
          rec.court = ctx.court ∧ rec.judge = ctx.judge ∧ rec.stage = ctx.stage := by
  induction bs generalizing ctx with
  | nil => exact ⟨rfl, by intro rec hrec; cases hrec⟩
  | cons b rest ih =>
    simp only [List.all_cons, Bool.and_eq_true] at h
    have hb := processRows_noSpan ctx h.1
    have ihr := ih ctx h.2
    simp only [processTbodies, hb.1]
    refine ⟨ihr.1, ?_⟩
    intro x hx
    rcases List.mem_append.mp hx with hx | hx
    · exact hb.2 x hx
    · exact ihr.2 x hx

theorem processTables_noMarkers {ts : List TableT} (ctx : GroupContext)
    (h : (ts.all noMarkersTable) = true) :
    (processTables ctx ts).1 = ctx
      ∧ ∀ rec ∈ (processTables ctx ts).2,
          rec.court = ctx.court ∧ rec.judge = ctx.judge ∧ rec.stage = ctx.stage := by
  induction ts generalizing ctx with
  | nil => exact ⟨rfl, by intro rec hrec; cases hrec⟩
  | cons t rest ih =>
    simp only [List.all_cons, Bool.and_eq_true, noMarkersTable] at h
    have hthead : t.prevThead = none := Option.isNone_iff_eq_none.mp h.1.1
    have happ : applyThead ctx t.prevThead = ctx := by rw [hthead]; rfl
    have hb := processTbodies_noSpan ctx h.1.2
    have ihr := ih ctx h.2
    simp only [processTables, processTable, happ, hb.1]
    refine ⟨ihr.1, ?_⟩
    intro x hx
    rcases List.mem_append.mp hx with hx | hx
    · exact hb.2 x hx
    · exact ihr.2 x hx

theorem firstVsIdx_append {pre : List String} {l : String} (post : List String)
    (hpre : (pre.all fun x => !(hasVs x)) = true) (hl : hasVs l = true) :
    firstVsIdx (pre ++ l :: post) = some pre.length := by
  induction pre with
  | nil => simp [firstVsIdx, hl]
  | cons p ps ih =>
    simp only [List.all_cons, Bool.and_eq_true, Bool.not_eq_true'] at hpre
    have ihe := ih hpre.2
    simp [firstVsIdx, hpre.1, ihe]

theorem firstVsIdx_none {lines : List String}
    (h : (lines.all fun x => !(hasVs x)) = true) :
    firstVsIdx lines = none := by
  induction lines with
  | nil => rfl
  | cons p ps ih =>
    simp only [List.all_cons, Bool.and_eq_true, Bool.not_eq_true'] at h
    have ihe := ih h.2
    simp [firstVsIdx, h.1, ihe]

theorem take_len_append (pre : List String) (l : String) (post : List String) :
    (pre ++ l :: post).take pre.length = pre := by
  induction pre with
  | nil => rfl
  | cons p ps ih => simp

theorem drop_len_append (pre : List String) (l : String) (post : List String) :
    (pre ++ l :: post).drop (pre.length + 1) = post := by
  induction pre with
  | nil => rfl
  | cons p ps ih => simp

theorem splitParties_split (pre : List String) (l : String) (post : List String)
    (hpre : (pre.all fun x => !(hasVs x)) = true) (hl : hasVs l = true) :
    splitParties (pre ++ l :: post) = (joinSpace pre, joinSpace post) := by
  rw [splitParties, firstVsIdx_append post hpre hl]
  simp [take_len_append, drop_len_append]

theorem splitParties_none (lines : List String)
    (h : (lines.all fun x => !(hasVs x)) = true) :
    splitParties lines = ("", "") := by
  rw [splitParties, firstVsIdx_none h]

theorem networkMsgNeEmpty (m : String) : ("Network error: " ++ m) ≠ "" := by
  intro h
  have h2 : "Network error: ".data ++ m.data = [] := by
    have h3 := congrArg String.data h
    rwa [String.data_append] at h3
  rcases List.append_eq_nil.mp h2 with ⟨ha, _⟩
  exact absurd ha (by decide)

theorem finalAttempt_le (f : Nat → HttpResponse) :
    ∀ b i, finalAttempt f i b ≤ i + b := by
  intro b
  induction b with
  | zero =>
    intro i
    simp only [finalAttempt]
    split <;> simp
  | succ n ih =>
    intro i
    simp only [finalAttempt]
    split
    · exact le_trans (ih (i + 1)) (by omega)
    · omega

theorem not_in_forcelist {s : Nat} (h4 : 400 ≤ s) (h5 : s < 500) (h9 : s ≠ 429) :
    s ∉ status_forcelist := by
  intro hmem
  simp only [status_forcelist, List.mem_cons, List.not_mem_nil, or_false] at hmem
  omega

theorem attemptsMade_no_retry {r : HttpResponse} (h : r.status ∉ status_forcelist) :
    attemptsMade (fun _ => r) = 1 := by
  simp [attemptsMade, finalAttempt, h]

/-- Results-page fixture with one table and five candidate rows (6 cells
    each), of which two carry a case number without a `/` separator (one of
    them empty). -/
def fixtureFiveRows : Document :=
  { pageText := "TOTAL CASES FOR 19272 = 5"
    tables :=
      [ { prevThead := none
          tbodies :=
            [ [ caseRow "1" "WP 101/2024" "A\nVS\nB"
              , caseRow "2" "" "A\nVS\nB"
              , caseRow "3" "WA 102/2024" "C\nVS\nD"
              , caseRow "4" "CRLP 103-2024" "E\nVS\nF"
              , caseRow "5" "SA 104/2024" "G\nVS\nH" ] ] } ] }

/-- Results-page fixture with three tables, of which only the first carries
    a court/judge header; the third has a header block that contains neither
    a `COURT NO.` div nor a `THE HONOURABLE` div. -/
def fixtureThreeTables : Document :=
  { pageText := ""
    tables :=
      [ { prevThead := some { courtDiv := some "COURT NO. 1"
                              judgeDiv := some "THE HONOURABLE SRI JUSTICE X"
                              listTypeDiv := none }
          tbodies := [ [ caseRow "1" "WP 1/2024" "A\nVS\nB" ] ] }
      , { prevThead := none
          tbodies := [ [ caseRow "2" "WP 2/2024" "C\nVS\nD" ] ] }
      , { prevThead := some { courtDiv := none
                              judgeDiv := none
                              listTypeDiv := some "DAILY LIST" }
          tbodies := [ [ caseRow "3" "WP 3/2024" "E\nVS\nF" ] ] } ] }

/-- A single table carrying no header and no stage marker. -/
def fixtureNoHeaderTable : TableT :=
  { prevThead := none
    tbodies := [ [ caseRow "1" "WP 9/2024" "A\nVS\nB" ] ] }

/-- Response stream for the retry scenarios: two 503s, then a 200. -/
def seq503x2then200 : Nat → HttpResponse :=
  fun i =>
    if i < 2 then { status := 503, body := "Service Unavailable" }
    else { status := 200, body := "RESULT PAGE" }

/-- Response stream for the retry scenarios: 503 on every attempt. -/
def seq503always : Nat → HttpResponse :=
  fun _ => { status := 503, body := "Service Unavailable" }

/-- C1: for every invocation of the scraper, the returned envelope satisfies
    `count == len(cases)`: on the success path `count` equals the number of
    records the parse produced, and on every error path the envelope carries
    `cases == []` together with `count == 0`. -/
theorem C1_envelope_count_invariant :
    (∀ (outcome : Except FetchRaise Document) (code date_str now : String),
      (fetch_data outcome code date_str now).count
        = (fetch_data outcome code date_str now).cases.length)
    ∧ (∀ (e : FetchRaise) (code date_str now : String),
      (fetch_data (Except.error e) code date_str now).cases = []
        ∧ (fetch_data (Except.error e) code date_str now).count = 0) := by
  constructor
  · intro outcome code date_str now
    cases outcome with
    | ok doc => simp [fetch_data, parse_html]
    | error e => cases e <;> simp [fetch_data, FetchRaise.isRequestException]
  · intro e code date_str now
    cases e <;> simp [fetch_data, FetchRaise.isRequestException]

/-- C2: every record emitted by the `dataTable` parser has a non-empty
    `case_no` containing the character `/` (`validCaseNo`); a candidate row
    whose case number is empty or lacks `/` contributes no record, so the
    five-row fixture with two such rows yields exactly 3 records, and the
    survivors keep their original document order. -/
theorem C2_case_no_filter :
    (∀ (doc : Document) (code date_str : String),
      ((parse_html doc code date_str).cases.all validCaseNo) = true)
    ∧ (parse_html fixtureFiveRows "19272" "28-01-2026").count = 3
    ∧ ((parse_html fixtureFiveRows "19272" "28-01-2026").cases.map CaseRecord.case_no
        = ["WP 101/2024", "WA 102/2024", "SA 104/2024"])
    ∧ ((parse_html fixtureFiveRows "19272" "28-01-2026").cases.map CaseRecord.s_no
        = ["1", "3", "5"]) := by
  refine ⟨?_, by decide, by decide, by decide⟩
  intro doc code date_str
  simpa [parse_html] using processTables_all_valid doc.tables initialContext

/-- C3: the `court`/`judge`/`stage` context is sticky: a missing header (or
    a header lacking one of the marker divs) leaves the carried value in
    place, case rows never change `court`/`judge`, a table changes
    `court`/`judge` only through its preceding header, and in the
    three-table fixture where only the first table carries a header all
    three records report that table's court and judge. -/
theorem C3_group_context_sticky :
    (∀ ctx : GroupContext, applyThead ctx none = ctx)
    ∧ (∀ (ctx : GroupContext) (th : Thead),
        (applyThead ctx (some { th with courtDiv := none })).court = ctx.court)
    ∧ (∀ (ctx : GroupContext) (th : Thead),
        (applyThead ctx (some { th with judgeDiv := none })).judge = ctx.judge)
    ∧ (∀ (ctx : GroupContext) (th : Thead),
        (applyThead ctx (some { th with listTypeDiv := none })).stage = ctx.stage)
    ∧ (∀ (ctx : GroupContext) (row : RowT),
        (processRow ctx row).1.court = ctx.court
          ∧ (processRow ctx row).1.judge = ctx.judge)
    ∧ (∀ (ctx : GroupContext) (t : TableT),
        (processTable ctx t).1.court = (applyThead ctx t.prevThead).court
          ∧ (processTable ctx t).1.judge = (applyThead ctx t.prevThead).judge)
    ∧ ((parse_html fixtureThreeTables "19272" "28-01-2026").cases.all
        (fun r => r.court == some "COURT NO. 1"
          && r.judge == some "THE HONOURABLE SRI JUSTICE X")) = true
    ∧ (parse_html fixtureThreeTables "19272" "28-01-2026").count = 3 := by
  refine ⟨fun ctx => rfl, ?_, ?_, ?_, processRow_fst_court, ?_, by decide, by decide⟩
  · intro ctx th
    rcases th with ⟨c, j, s⟩
    cases j <;> cases s <;> rfl
  · intro ctx th
    rcases th with ⟨c, j, s⟩
    cases c <;> cases s <;> rfl
  · intro ctx th
    rcases th with ⟨c, j, s⟩
    cases c <;> cases j <;> rfl
  · intro ctx t
    exact processTbodies_fst_court t.tbodies (applyThead ctx t.prevThead)

/-- C4 counterexample: the claim's own example fails on the code. The split
    trigger is substring containment of "vs" in the lowercased line, and
    "versus" does not contain "vs" as a contiguous substring, so the party
    cell lines `["Ram Kumar", "Versus", "State of Telangana"]` produce
    empty petitioner and respondent, not `"Ram Kumar"`/`"State of
    Telangana"`. -/
theorem C4_counterexample_versus :
    splitParties ["Ram Kumar", "Versus", "State of Telangana"] = ("", "")
    ∧ hasVs "Versus" = false
    ∧ ¬ (splitParties ["Ram Kumar", "Versus", "State of Telangana"]
          = ("Ram Kumar", "State of Telangana")) := by
  decide

/-- C4 (amended): the non-empty lines of the party cell are split at the
    first line containing "vs" case-insensitively as a substring; petitioner
    is the space-join of the lines before that line and respondent the
    space-join of the lines after it, and when no line contains "vs" both
    fields are empty. The line "Versus" does not contain the substring
    "vs", so the claim's example yields two empty fields; with separator
    line "VS" it splits as the claim describes. -/
theorem C4_party_split (pre : List String) (l : String) (post : List String)
    (lines : List String)
    (hpre : (pre.all fun x => !(hasVs x)) = true)
    (hl : hasVs l = true)
    (hnone : (lines.all fun x => !(hasVs x)) = true) :
    splitParties (pre ++ l :: post) = (joinSpace pre, joinSpace post)
    ∧ splitParties lines = ("", "")
    ∧ splitParties ["Ram Kumar", "VS", "State of Telangana"]
        = ("Ram Kumar", "State of Telangana")
    ∧ splitParties ["Ram Kumar", "Versus", "State of Telangana"] = ("", "")
    ∧ partyLines "Ram Kumar\nVS\nState of Telangana"
        = ["Ram Kumar", "VS", "State of Telangana"] :=
  ⟨splitParties_split pre l post hpre hl, splitParties_none lines hnone,
    by decide, by decide, by decide⟩

/-- C4 witness: the amended split theorem applied at a concrete cell. -/
theorem C4_party_split_witness :
    splitParties (["Ram Kumar"] ++ "VS" :: ["State of Telangana"])
      = (joinSpace ["Ram Kumar"], joinSpace ["State of Telangana"]) :=
  (C4_party_split ["Ram Kumar"] "VS" ["State of Telangana"] ["No Counsel Listed"]
    (by decide) (by decide) (by decide)).1

/-- C5 counterexample: in the tshc-causelist-app-final variant the generic
    handler returns `{"error": str(e), ...}`, so an exception whose `str` is
    empty yields an envelope whose error string is empty — the envelope is
    still returned normally with `cases == []` and `count == 0`, but the
    error string is not non-empty as the claim states. -/
theorem C5_counterexample_empty_message :
    (finalApp_fetch_data (Except.error (FetchRaise.otherException ""))
        "19272" "28-01-2026" "t1").cases = []
    ∧ (finalApp_fetch_data (Except.error (FetchRaise.otherException ""))
        "19272" "28-01-2026" "t1").count = 0
    ∧ (finalApp_fetch_data (Except.error (FetchRaise.otherException ""))
        "19272" "28-01-2026" "t1").error = some ""
    ∧ ¬ ∃ s, (finalApp_fetch_data (Except.error (FetchRaise.otherException ""))
        "19272" "28-01-2026" "t1").error = some s ∧ s ≠ "" := by
  refine ⟨rfl, rfl, rfl, ?_⟩
  rintro ⟨s, hs, hne⟩
  simp [finalApp_fetch_data, FetchRaise.isRequestException, FetchRaise.message] at hs
  exact hne hs.symm

/-- C5 (amended): whenever the transport or parse step raises, `fetch_data`
    returns normally; the proxy.py scraper always produces `cases == []`,
    `count == 0` and one of two fixed non-empty error messages; the
    tshc-causelist-app-final variant also produces `cases == []` and
    `count == 0`, with error `"Network error: " ++ str(e)` (non-empty) for
    every `requests.RequestException` and the bare `str(e)` — possibly
    empty — for any other exception. -/
theorem C5_error_envelope (e : FetchRaise) (code date_str now : String) :
    ((fetch_data (Except.error e) code date_str now).cases = []
      ∧ (fetch_data (Except.error e) code date_str now).count = 0
      ∧ ∃ s, (fetch_data (Except.error e) code date_str now).error = some s
          ∧ s ≠ "")
    ∧ ((finalApp_fetch_data (Except.error e) code date_str now).cases = []
      ∧ (finalApp_fetch_data (Except.error e) code date_str now).count = 0
      ∧ (finalApp_fetch_data (Except.error e) code date_str now).error
          = some (if e.isRequestException then "Network error: " ++ e.message
              else e.message))
    ∧ (e.isRequestException = true →
        ∃ s, (finalApp_fetch_data (Except.error e) code date_str now).error
            = some s ∧ s ≠ "") := by
  cases e with
  | requestTimeout m =>
    exact ⟨⟨rfl, rfl, "Unable to connect to court website", rfl, by decide⟩,
      ⟨rfl, rfl, rfl⟩,
      fun _ => ⟨"Network error: " ++ m, rfl, networkMsgNeEmpty m⟩⟩
  | connectionFailure m =>
    exact ⟨⟨rfl, rfl, "Unable to connect to court website", rfl, by decide⟩,
      ⟨rfl, rfl, rfl⟩,
      fun _ => ⟨"Network error: " ++ m, rfl, networkMsgNeEmpty m⟩⟩
  | httpStatusError m =>
    exact ⟨⟨rfl, rfl, "Unable to connect to court website", rfl, by decide⟩,
      ⟨rfl, rfl, rfl⟩,
      fun _ => ⟨"Network error: " ++ m, rfl, networkMsgNeEmpty m⟩⟩
  | otherRequestError m =>
    exact ⟨⟨rfl, rfl, "Unable to connect to court website", rfl, by decide⟩,
      ⟨rfl, rfl, rfl⟩,
      fun _ => ⟨"Network error: " ++ m, rfl, networkMsgNeEmpty m⟩⟩
  | otherException m =>
    exact ⟨⟨rfl, rfl, "An error occurred while fetching data", rfl, by decide⟩,
      ⟨rfl, rfl, rfl⟩,
      fun h => by cases h⟩

/-- C5 witness: the amended error-envelope theorem at a timeout with both
    hypotheses of its implication discharged. -/
theorem C5_error_envelope_witness :
    ∃ s, (finalApp_fetch_data
        (Except.error (FetchRaise.requestTimeout "Read timed out"))
        "19272" "28-01-2026" "t1").error = some s ∧ s ≠ "" :=
  (C5_error_envelope (FetchRaise.requestTimeout "Read timed out")
    "19272" "28-01-2026" "t1").2.2 (by decide)

/-- C6: the configured transport retries exactly the statuses 429, 500,
    502, 503, 504 with exponential backoff (factor 0.8, doubling per retry)
    within a budget of 3 retries (4 attempts): two 503s followed by a 200
    succeed in 3 attempts and return the 200 body; four consecutive 503s
    use all 4 attempts and surface an HTTP error through
    `raise_for_status`; a non-429 4xx status is never retried. -/
theorem C6_transport_retry (s : Nat) (body : String)
    (h4 : 400 ≤ s) (h5 : s < 500) (h9 : s ≠ 429) :
    (sessionResult seq503x2then200 = { status := 200, body := "RESULT PAGE" }
      ∧ attemptsMade seq503x2then200 = 3
      ∧ raise_for_status (sessionResult seq503x2then200)
          = Except.ok { status := 200, body := "RESULT PAGE" })
    ∧ (attemptsMade seq503always = 4
      ∧ raise_for_status (sessionResult seq503always) = Except.error 503)
    ∧ (attemptsMade (fun _ => { status := s, body := body }) = 1
      ∧ raise_for_status { status := s, body := body } = Except.error s)
    ∧ (∀ f, attemptsMade f ≤ retry_total + 1)
    ∧ (backoffTenths 1 = backoff_factor_tenths
      ∧ ∀ k, backoffTenths (k + 2) = 2 * backoffTenths (k + 1)) := by
  refine ⟨⟨rfl, rfl, rfl⟩, ⟨rfl, rfl⟩, ⟨?_, ?_⟩, ?_, by decide, ?_⟩
  · exact attemptsMade_no_retry (not_in_forcelist h4 h5 h9)
  · simp [raise_for_status, h4]
  · intro f
    have := finalAttempt_le f retry_total 0
    simp only [attemptsMade]
    omega
  · intro k
    have h1 : k + 2 - 1 = k + 1 := by omega
    have h2 : k + 1 - 1 = k := by omega
    simp only [backoffTenths, h1, h2, pow_succ]
    ring

/-- C6 witness: the retry-policy theorem at status 404. -/
theorem C6_transport_retry_witness :
    attemptsMade (fun _ => { status := 404, body := "Not Found" }) = 1
    ∧ raise_for_status { status := 404, body := "Not Found" }
        = Except.error 404 :=
  (C6_transport_retry 404 "Not Found" (by decide) (by decide) (by decide)).2.2.1

/-- C7 counterexample: the repository also contains the
    tshc-causelist-app-final scraper, whose `fetch_data` passes
    `verify=False` on both of its requests — so its very first attempt of
    its very first request already has certificate verification disabled,
    refuting "verification is never disabled on the first attempt of any
    request the scraper makes". -/
theorem C7_counterexample_verify_disabled :
    finalApp_fetch_requests.map RequestSpec.verify = [false, false]
    ∧ finalApp_fetch_requests.head?.map RequestSpec.verify = some false := by
  decide

/-- C7 (amended): in proxy.py's `_make_request` every request is first
    attempted with `verify=True`; a second attempt, with `verify=False`,
    exists exactly when the first attempt raised an `SSLError`, and there is
    at most one verification-disabled attempt per request; first-attempt
    success and SSL-fallback success both deliver the response. The legacy
    tshc-causelist-app-final scraper instead disables verification on every
    request, including first attempts. -/
theorem C7_verify_policy : ∀ send : Bool → AttemptResult,
    (verifyFlags send).head? = some true
    ∧ verifyFlags send
        = (if send true = AttemptResult.sslFailure then [true, false] else [true])
    ∧ (verifyFlags send).count false ≤ 1
    ∧ make_request (fun _ => AttemptResult.response { status := 200, body := "OK" })
        = Except.ok { status := 200, body := "OK" }
    ∧ make_request (fun v => if v then AttemptResult.sslFailure
          else AttemptResult.response { status := 200, body := "OK" })
        = Except.ok { status := 200, body := "OK" }
    ∧ finalApp_fetch_requests.map RequestSpec.verify = [false, false] := by
  intro send
  refine ⟨?_, ?_, ?_, rfl, rfl, by decide⟩ <;>
    cases h : send true <;> simp [verifyFlags, h]

/-- C8: parsing the same document twice with the same advocate code and
    date yields identical ordered output — the parser threads no mutable
    state between invocations, so two fetches of the same document (even at
    different invocation times) agree on `cases`, `count` and
    `total_cases_header`, and `_parse_html` is a pure function of its
    arguments. -/
theorem C8_parse_idempotent :
    ∀ (doc : Document) (code date_str now1 now2 : String),
    (fetch_data (Except.ok doc) code date_str now1).cases
        = (fetch_data (Except.ok doc) code date_str now2).cases
    ∧ (fetch_data (Except.ok doc) code date_str now1).count
        = (fetch_data (Except.ok doc) code date_str now2).count
    ∧ (fetch_data (Except.ok doc) code date_str now1).total_cases_header
        = (fetch_data (Except.ok doc) code date_str now2).total_cases_header
    ∧ parse_html doc code date_str = parse_html doc code date_str := by
  intro doc code date_str now1 now2
  exact ⟨rfl, rfl, rfl, rfl⟩

/-- C9: when the first non-empty line of the party cell contains "vs"
    case-insensitively as a substring — including inside a longer word such
    as "NAVSTAR" — the split fires on that first line: petitioner is the
    empty string and respondent is the space-join of all subsequent
    lines. -/
theorem C9_first_line_vs (l : String) (rest : List String)
    (h : hasVs l = true) :
    splitParties (l :: rest) = ("", joinSpace rest)
    ∧ hasVs "NAVSTAR Corp" = true
    ∧ splitParties ["NAVSTAR Corp", "Union of India"] = ("", "Union of India")
    ∧ partyLines "NAVSTAR Corp\n\n  Union of India  "
        = ["NAVSTAR Corp", "Union of India"] := by
  refine ⟨?_, by decide, by decide, by decide⟩
  exact splitParties_split [] l rest rfl h

/-- C9 witness: the first-line split theorem at a concrete cell whose first
    line contains "VS". -/
theorem C9_first_line_vs_witness :
    splitParties ["State VS Ram", "X Y"] = ("", joinSpace ["X Y"])
    ∧ hasVs "NAVSTAR Corp" = true
    ∧ splitParties ["NAVSTAR Corp", "Union of India"] = ("", "Union of India")
    ∧ partyLines "NAVSTAR Corp\n\n  Union of India  "
        = ["NAVSTAR Corp", "Union of India"] :=
  C9_first_line_vs "State VS Ram" ["X Y"] (by decide)

/-- C10: case rows encountered before any court/judge/stage header or
    marker produce records whose `court`, `judge` and `stage` are `None`
    (`Option.none` here, serialized as JSON null) rather than empty
    strings: in any document whose first table carries no marker, every
    record of that table — a prefix of the parser's output — has all three
    context fields `none`. -/
theorem C10_initial_context_none (t : TableT) (rest : List TableT)
    (pt code date_str : String) (h : noMarkersTable t = true) :
    ((processTable initialContext t).2.all
      (fun r => r.court.isNone && r.judge.isNone && r.stage.isNone)) = true
    ∧ ∃ tail,
        (parse_html { pageText := pt, tables := t :: rest } code date_str).cases
          = (processTable initialContext t).2 ++ tail := by
  simp only [noMarkersTable, Bool.and_eq_true] at h
  have hthead : t.prevThead = none := Option.isNone_iff_eq_none.mp h.1
  have hspec := processTbodies_noSpan initialContext h.2
  constructor
  · rw [List.all_eq_true]
    intro r hr
    have hmem : r ∈ (processTbodies initialContext t.tbodies).2 := by
      simpa [processTable, hthead, applyThead] using hr
    have hctx := hspec.2 r hmem
    simp [hctx.1, hctx.2.1, hctx.2.2, initialContext]
  · exact ⟨(processTables (processTable initialContext t).1 rest).2, rfl⟩

/-- C10 witness: the initial-context theorem at a one-table fixture with no
    header. -/
theorem C10_initial_context_none_witness :
    ((processTable initialContext fixtureNoHeaderTable).2.all
      (fun r => r.court.isNone && r.judge.isNone && r.stage.isNone)) = true
    ∧ ∃ tail,
        (parse_html { pageText := "", tables := [fixtureNoHeaderTable] }
            "19272" "28-01-2026").cases
          = (processTable initialContext fixtureNoHeaderTable).2 ++ tail :=
  C10_initial_context_none fixtureNoHeaderTable [] "" "19272" "28-01-2026"
    (by decide)

end TSHC
